import Mathlib

/-
Verification development for the rs_terminal session server.

Shallow embedding of the Rust source under src/rs_terminal: the config
resolution (src/config/config.rs), the PTY launch configuration and the
config-driven PTY factory (src/pty/mod.rs), the session metadata record
(src/app_state/session.rs), the message handler (src/service/message_handler.rs),
the session runtime pump loop and its teardown (src/service/session_handler.rs),
the WebSocket connection binding (src/protocol/websocket_connection.rs) and the
tokio-process PTY backend (src/pty/tokio_process_pty_impl.rs).

Rust HashMap values are modelled as association lists (key-unique where the
claim needs it); u16/u64 machine integers are modelled as Nat (no claim here
exercises overflow); fallible operations return Except; wall-clock reads are
modelled by passing the current time as an explicit Nat argument.
-/

set_option autoImplicit false

/-- Association-list lookup, modelling Rust HashMap::get over our list model:
returns the value of the first entry whose key matches. -/
def assocLookup {α : Type} (l : List (String × α)) (k : String) : Option α :=
  match l with
  | [] => none
  | (k', v) :: rest => if k' = k then some v else assocLookup rest k

/-- Terminal size (config.rs TerminalSize, u16 fields modelled as Nat). -/
structure TerminalSize where
  columns : Nat
  rows : Nat
deriving DecidableEq, Repr

/-- config.rs DefaultShellConfig: fallback template with required size. -/
structure DefaultShellConfig where
  size : TerminalSize
  working_directory : Option String
  environment : Option (List (String × String))
deriving DecidableEq, Repr

/-- config.rs ShellConfig: per-shell-type entry with required command. -/
structure ShellConfig where
  command : List String
  working_directory : Option String
  size : Option TerminalSize
  environment : Option (List (String × String))
deriving DecidableEq, Repr

/-- config.rs TerminalConfig. -/
structure TerminalConfig where
  default_shell_type : String
  session_timeout : Nat
  default_shell_config : DefaultShellConfig
  shells : List (String × ShellConfig)
deriving DecidableEq, Repr

/-- config.rs ResolvedShellConfig. -/
structure ResolvedShellConfig where
  shell_type : String
  command : List String
  size : TerminalSize
  working_directory : Option String
  environment : Option (List (String × String))
deriving DecidableEq, Repr

/-- TerminalConfig::get_shell_config (config.rs lines 63-95): each field is
resolved independently; `and_then`/`or_else` on Options become Option.bind and
Option.orElse; a missing command resolves to the empty vector. -/
def TerminalConfig.get_shell_config (cfg : TerminalConfig) (shell_type : String) :
    ResolvedShellConfig :=
  let shell_config := assocLookup cfg.shells shell_type
  { shell_type := shell_type
    command := (shell_config.map ShellConfig.command).getD []
    size := (shell_config.bind ShellConfig.size).getD cfg.default_shell_config.size
    working_directory :=
      (shell_config.bind ShellConfig.working_directory).orElse
        (fun _ => cfg.default_shell_config.working_directory)
    environment :=
      (shell_config.bind ShellConfig.environment).orElse
        (fun _ => cfg.default_shell_config.environment) }

/-- pty_trait.rs PtyConfig. -/
structure PtyConfig where
  command : String
  args : List String
  cols : Nat
  rows : Nat
  env : List (String × (String))
  cwd : Option String
deriving DecidableEq, Repr

/-- The fixed configuration built inside create_pty (pty/mod.rs lines 24-34). -/
def create_pty_config : PtyConfig :=
  { command := "bash"
    args := []
    cols := 80
    rows := 24
    env := [("TERM", "xterm-256color"), ("COLORTERM", "truecolor")]
    cwd := none }

/-- One step of the environment-accumulation loop in create_pty_from_config
(pty/mod.rs lines 116-123): if the key already occurs, replace the first
occurrence in place; otherwise push the pair at the end. -/
def replaceOrPush (env : List (String × String)) (k v : String) :
    List (String × String) :=
  match env with
  | [] => [(k, v)]
  | (k', v') :: rest =>
      if k' = k then (k, v) :: rest else (k', v') :: replaceOrPush rest k v

/-- The environment merge of create_pty_from_config (pty/mod.rs lines 102-124):
start from the default entries, then fold the shell-specific entries through
the replace-or-push loop. -/
def merge_env (default_env shell_env : List (String × String)) :
    List (String × String) :=
  shell_env.foldl (fun acc kv => replaceOrPush acc kv.1 kv.2) default_env

/-- create_pty_from_config (pty/mod.rs lines 65-134), up to the point where the
PtyConfig is handed to the platform factory.  Returns none where the Rust
function returns Err (no entry for the default shell type nor for "bash";
no "default" entry) or panics (empty command vector; "default" entry without
a size when the chosen shell entry has none). -/
def create_pty_from_config (cfg : TerminalConfig) : Option PtyConfig := do
  let shell_config ←
    (assocLookup cfg.shells cfg.default_shell_type).orElse
      (fun _ => assocLookup cfg.shells "bash")
  let default_shell_config ← assocLookup cfg.shells "default"
  let command ← shell_config.command.head?
  let args := shell_config.command.tail
  let working_directory :=
    shell_config.working_directory.orElse
      (fun _ => default_shell_config.working_directory)
  let terminal_size ←
    (shell_config.size).orElse (fun _ => default_shell_config.size)
  let environment :=
    merge_env (default_shell_config.environment.getD [])
      (shell_config.environment.getD [])
  pure
    { command := command
      args := args
      cols := terminal_size.columns
      rows := terminal_size.rows
      env := environment
      cwd := working_directory }

/-- app_state/session.rs SessionStatus. -/
inductive SessionStatus where
  | Created
  | Active
  | Disconnected
  | Terminated
deriving DecidableEq, Repr

/-- app_state/session.rs ConnectionType. -/
inductive ConnectionTy where
  | WebSocket
  | WebTransport
deriving DecidableEq, Repr

/-- app_state/session.rs Session (u64 timestamps as Nat). -/
structure Session where
  session_id : String
  user_id : String
  title : Option String
  status : SessionStatus
  columns : Nat
  rows : Nat
  working_directory : Option String
  shell_type : String
  connection_type : ConnectionTy
  created_at : Nat
  updated_at : Nat
deriving DecidableEq, Repr

/-- Session::new (session.rs lines 67-95); the SystemTime::now read is the
explicit `now` argument. -/
def Session.new (session_id user_id : String) (title working_directory : Option String)
    (shell_type : String) (columns rows : Nat) (connection_type : ConnectionTy)
    (now : Nat) : Session :=
  { session_id := session_id
    user_id := user_id
    title := title
    status := SessionStatus.Created
    columns := columns
    rows := rows
    working_directory := working_directory
    shell_type := shell_type
    connection_type := connection_type
    created_at := now
    updated_at := now }

/-- Session::resize (session.rs lines 98-105). -/
def Session.resize (s : Session) (columns rows : Nat) (now : Nat) : Session :=
  { s with columns := columns, rows := rows, updated_at := now }

/-- Session::set_status (session.rs lines 108-114): assigns any status, with
no guard on the previous status. -/
def Session.set_status (s : Session) (status : SessionStatus) (now : Nat) : Session :=
  { s with status := status, updated_at := now }

/-- The sessions reachable through the exposed mutations, under a monotone
wall clock: every mutation happens at a time not earlier than the previous
update. -/
inductive SessionReachable : Session → Prop where
  | new (session_id user_id : String) (title working_directory : Option String)
      (shell_type : String) (columns rows : Nat) (connection_type : ConnectionTy)
      (now : Nat) :
      SessionReachable (Session.new session_id user_id title working_directory
        shell_type columns rows connection_type now)
  | resize (s : Session) (columns rows now : Nat) (hs : SessionReachable s)
      (hclock : s.updated_at ≤ now) :
      SessionReachable (s.resize columns rows now)
  | set_status (s : Session) (status : SessionStatus) (now : Nat)
      (hs : SessionReachable s) (hclock : s.updated_at ≤ now) :
      SessionReachable (s.set_status status now)

/-- The effects the session runtime performs, in program order
(session_handler.rs).  `setStatus` and `sleepDelay` never occur in that file;
they are listed so their absence from the teardown trace is expressible. -/
inductive Effect where
  | addSession (id : String)
  | sendDiag (msg : String)
  | sendPong
  | sendText (cps : List Nat)
  | sendBinary (bytes : List Nat)
  | writePtyText (s : String)
  | writePtyBin (bytes : List Nat)
  | closeConn
  | abortReadTask
  | killPty
  | setStatus (st : SessionStatus)
  | sleepDelay (ms : Nat)
  | removeSession (id : String)
  | logErr
deriving DecidableEq, Repr, BEq

/-- protocol TerminalMessage (protocol/mod.rs): the normalized inbound frame. -/
inductive TerminalMessage where
  | text (s : String)
  | binary (b : List Nat)
  | ping (b : List Nat)
  | pong
  | close
deriving DecidableEq, Repr

/-- One step of Rust UTF-8 validation/decoding, per the standard UTF-8 rules
enforced by String::from_utf8 (shortest form only, surrogates excluded,
maximum U+10FFFF).  Consumes the bytes of one scalar value and returns the
scalar and the remaining bytes; bit operations of the Rust decoder are written
arithmetically (for b0 in 0xC0..0xDF, b0 band 0x1F = b0 - 0xC0, and so on). -/
def utf8DecodeChar? : List Nat → Option (Nat × List Nat)
  | [] => none
  | b0 :: rest =>
    if b0 < 0x80 then some (b0, rest)
    else if b0 < 0xC2 then none
    else if b0 ≤ 0xDF then
      match rest with
      | b1 :: r =>
        if 0x80 ≤ b1 ∧ b1 ≤ 0xBF then
          some ((b0 - 0xC0) * 64 + (b1 - 0x80), r)
        else none
      | [] => none
    else if b0 ≤ 0xEF then
      match rest with
      | b1 :: b2 :: r =>
        if (¬ b0 = 0xE0 ∨ 0xA0 ≤ b1) ∧ (¬ b0 = 0xED ∨ b1 ≤ 0x9F) ∧
            0x80 ≤ b1 ∧ b1 ≤ 0xBF ∧ 0x80 ≤ b2 ∧ b2 ≤ 0xBF then
          some ((b0 - 0xE0) * 4096 + (b1 - 0x80) * 64 + (b2 - 0x80), r)
        else none
      | _ => none
    else if b0 ≤ 0xF4 then
      match rest with
      | b1 :: b2 :: b3 :: r =>
        if (¬ b0 = 0xF0 ∨ 0x90 ≤ b1) ∧ (¬ b0 = 0xF4 ∨ b1 ≤ 0x8F) ∧
            0x80 ≤ b1 ∧ b1 ≤ 0xBF ∧ 0x80 ≤ b2 ∧ b2 ≤ 0xBF ∧
            0x80 ≤ b3 ∧ b3 ≤ 0xBF then
          some ((b0 - 0xF0) * 262144 + (b1 - 0x80) * 4096 +
            (b2 - 0x80) * 64 + (b3 - 0x80), r)
        else none
      | _ => none
    else none

/-- Standard UTF-8 encoding of one scalar value. -/
def utf8EncodeChar (c : Nat) : List Nat :=
  if c < 0x80 then [c]
  else if c < 0x800 then [0xC0 + c / 64, 0x80 + c % 64]
  else if c < 0x10000 then
    [0xE0 + c / 4096, 0x80 + (c / 64) % 64, 0x80 + c % 64]
  else
    [0xF0 + c / 262144, 0x80 + (c / 4096) % 64, 0x80 + (c / 64) % 64,
      0x80 + c % 64]

/-- Standard UTF-8 encoding of a sequence of scalar values. -/
def utf8Encode : List Nat → List Nat
  | [] => []
  | c :: cs => utf8EncodeChar c ++ utf8Encode cs

/-- Fuelled driver for whole-buffer decoding: the fuel only bounds the number
of decoded characters and is irrelevant once it is at least the byte count. -/
def utf8DecodeLoop : Nat → List Nat → Option (List Nat)
  | _, [] => some []
  | 0, _ :: _ => none
  | fuel + 1, b :: bs =>
    match utf8DecodeChar? (b :: bs) with
    | none => none
    | some (c, rest) => (utf8DecodeLoop fuel rest).map (fun cs => c :: cs)

/-- Rust String::from_utf8 on a byte buffer: some scalar-value sequence when
the buffer is valid UTF-8, none otherwise. -/
def utf8Decode? (l : List Nat) : Option (List Nat) :=
  utf8DecodeLoop l.length l

/-- The pump events the main loop races in its select (session_handler.rs
lines 86-174): an inbound connection item (message, error, or end of stream)
or a chunk handed over from the PTY read task. -/
inductive PumpEvent where
  | connMsg (m : Option (Except String TerminalMessage))
  | ptyData (bytes : List Nat)
deriving Repr

/-- One iteration of the main pump loop (session_handler.rs lines 86-174):
the actions attempted this iteration, and whether the loop continues.
`ioOk` tells whether the single fallible I/O call of the branch succeeds;
on failure the loop breaks after logging. -/
def pumpStep (ev : PumpEvent) (ioOk : Bool) : List Effect × Bool :=
  match ev with
  | PumpEvent.connMsg (some (Except.ok (TerminalMessage.text s))) =>
      (if ioOk then [Effect.writePtyText s] else [Effect.writePtyText s, Effect.logErr], ioOk)
  | PumpEvent.connMsg (some (Except.ok (TerminalMessage.binary b))) =>
      (if ioOk then [Effect.writePtyBin b] else [Effect.writePtyBin b, Effect.logErr], ioOk)
  | PumpEvent.connMsg (some (Except.ok (TerminalMessage.ping _))) =>
      (if ioOk then [Effect.sendPong] else [Effect.sendPong, Effect.logErr], ioOk)
  | PumpEvent.connMsg (some (Except.ok TerminalMessage.pong)) => ([], true)
  | PumpEvent.connMsg (some (Except.ok TerminalMessage.close)) => ([], false)
  | PumpEvent.connMsg (some (Except.error _)) => ([Effect.logErr], false)
  | PumpEvent.connMsg none => ([], false)
  | PumpEvent.ptyData bytes =>
    match utf8Decode? bytes with
    | some cps =>
        (if ioOk then [Effect.sendText cps] else [Effect.sendText cps, Effect.logErr], ioOk)
    | none =>
        (if ioOk then [Effect.sendBinary bytes] else [Effect.sendBinary bytes, Effect.logErr], ioOk)

/-- MessageHandler::handle_message (message_handler.rs lines 16-119): returns
should_close; write/send failures become errors.  `ioOk` tells whether the
fallible PTY write or pong send of the branch succeeds. -/
def MessageHandler.handle_message (msg : TerminalMessage) (ioOk : Bool) :
    Except String Bool :=
  match msg with
  | TerminalMessage.text _ =>
      if ioOk then Except.ok false else Except.error "failed to write text to PTY"
  | TerminalMessage.binary _ =>
      if ioOk then Except.ok false else Except.error "failed to write binary to PTY"
  | TerminalMessage.ping _ =>
      if ioOk then Except.ok false else Except.error "failed to send pong"
  | TerminalMessage.pong => Except.ok false
  | TerminalMessage.close => Except.ok true

/-- MessageHandler::handle_pty_output (message_handler.rs lines 122-149): the
single frame attempted for a PTY chunk. -/
def MessageHandler.handle_pty_output (bytes : List Nat) : Effect :=
  match utf8Decode? bytes with
  | some cps => Effect.sendText cps
  | none => Effect.sendBinary bytes

/-- One iteration of the background PTY read task (session_handler.rs lines
53-83); its only exit is a failed channel send (main loop gone). -/
inductive ReadStep where
  | sendToMain (data : List Nat)
  | stopChanClosed
  | sleepRetry (ms : Nat)
deriving DecidableEq, Repr

/-- The body of the read task loop: a successful read of n bytes forwards the
data when n is positive and sleeps 10ms when n = 0; a read error sleeps 100ms
and continues; only a closed channel stops the task. -/
def read_task_step (res : Except String (List Nat)) (chanOpen : Bool) : ReadStep :=
  match res with
  | Except.ok data =>
      if data.length > 0 then
        if chanOpen then ReadStep.sendToMain data else ReadStep.stopChanClosed
      else ReadStep.sleepRetry 10
  | Except.error _ => ReadStep.sleepRetry 100

/-- Outcome of session initialization (session_handler.rs lines 18-44). -/
inductive InitResult where
  | enteredActive (pre : List Effect)
  | failedClosed (actions : List Effect)
deriving DecidableEq, Repr

/-- Session initialization (session_handler.rs lines 18-44): the registry add,
then the PTY spawn; on spawn failure one diagnostic text, a connection close
and the registry removal, returning before the pump loop. -/
def session_init (spawn : Except String Unit) (conn_id : String) : InitResult :=
  match spawn with
  | Except.ok _ => InitResult.enteredActive [Effect.addSession conn_id]
  | Except.error e =>
      InitResult.failedClosed
        [Effect.addSession conn_id,
          Effect.sendDiag ("Error: Failed to create terminal session: " ++ e),
          Effect.closeConn,
          Effect.removeSession conn_id]

/-- The teardown after the pump loop exits (session_handler.rs lines 177-199):
abort the read task, close the connection, kill the PTY, remove the registry
entry — close and kill are attempted unconditionally, their failures only
logged. -/
def teardown (closeFails killFails : Bool) (conn_id : String) : List Effect :=
  [Effect.abortReadTask, Effect.closeConn] ++
    (if closeFails then [Effect.logErr] else []) ++
    [Effect.killPty] ++
    (if killFails then [Effect.logErr] else []) ++
    [Effect.removeSession conn_id]

/-- State of the child process behind TokioProcessPty, modelling the
std/tokio process API: once the exit status has been collected by a wait
call, the child is reaped and a later kill call is rejected with an
invalid-argument error; killing a live or exited-but-unreaped child
succeeds and reaps it (tokio kill = start_kill + wait). -/
inductive ChildState where
  | running
  | exitedUnreaped
  | reaped
deriving DecidableEq, Repr

/-- tokio Child::kill on the child-state model. -/
def child_kill : ChildState → Except String ChildState
  | ChildState.running => Except.ok ChildState.reaped
  | ChildState.exitedUnreaped => Except.ok ChildState.reaped
  | ChildState.reaped => Except.error "invalid argument: cannot kill an exited process"

/-- tokio Child::try_wait on the child-state model: reports and caches an
exit; reaps an exited child. -/
def child_try_wait : ChildState → Option Unit × ChildState
  | ChildState.running => (none, ChildState.running)
  | ChildState.exitedUnreaped => (some (), ChildState.reaped)
  | ChildState.reaped => (some (), ChildState.reaped)

/-- tokio_process_pty_impl.rs TokioProcessPty (the fields the lifecycle claims
touch). -/
structure TokioProcessPty where
  child : ChildState
  child_exited : Bool
deriving DecidableEq, Repr

/-- TokioProcessPty::try_wait (tokio_process_pty_impl.rs lines 226-247):
answers None without polling once child_exited is set, else polls the child
and records an observed exit. -/
def TokioProcessPty.try_wait (p : TokioProcessPty) :
    Option Unit × TokioProcessPty :=
  if p.child_exited then (none, p)
  else
    match child_try_wait p.child with
    | (some u, c) => (some u, { child := c, child_exited := true })
    | (none, c) => (none, { p with child := c })

/-- TokioProcessPty::kill (tokio_process_pty_impl.rs lines 249-261): calls the
child kill unconditionally and propagates its error; on success records the
exit. -/
def TokioProcessPty.kill (p : TokioProcessPty) : Except String TokioProcessPty :=
  match child_kill p.child with
  | Except.ok c => Except.ok { child := c, child_exited := true }
  | Except.error e => Except.error e

/-- State of the transport beneath WebSocketConnection: per the WebSocket
stack used (axum over tungstenite), once a Close frame has been sent every
further send is rejected. -/
structure WsSocket where
  close_sent : Bool
deriving DecidableEq, Repr

/-- Frames the websocket binding sends. -/
inductive WsFrame where
  | text (s : String)
  | binary (b : List Nat)
  | close
deriving DecidableEq, Repr

/-- Sending one frame on the transport model. -/
def ws_send (s : WsSocket) (f : WsFrame) : Except String WsSocket :=
  if s.close_sent then Except.error "send after closing"
  else
    match f with
    | WsFrame.close => Except.ok { close_sent := true }
    | _ => Except.ok s

/-- protocol/websocket_connection.rs WebSocketConnection. -/
structure WebSocketConnection where
  socket : WsSocket
  id : String
deriving DecidableEq, Repr

/-- WebSocketConnection::close (websocket_connection.rs lines 83-89): sends a
Close frame and propagates any transport error. -/
def WebSocketConnection.close (c : WebSocketConnection) :
    Except String WebSocketConnection :=
  match ws_send c.socket WsFrame.close with
  | Except.ok s => Except.ok { c with socket := s }
  | Except.error e => Except.error e

/-- The PtyConfig that handle_terminal_session hands to spawn: it calls
create_pty() (session_handler.rs line 24, pty/mod.rs line 22), so the
application configuration passed around in AppState is never consulted. -/
def session_spawn_config (_state_config : TerminalConfig) : PtyConfig :=
  create_pty_config

/-- Whether an effect is an outbound frame carrying PTY output. -/
def isSendFrame : Effect → Bool
  | Effect.sendText _ => true
  | Effect.sendBinary _ => true
  | _ => false

/-- Whether an effect is the initialization-failure diagnostic text. -/
def isDiag : Effect → Bool
  | Effect.sendDiag _ => true
  | _ => false

/-- Whether an effect sets a registry status. -/
def isSetStatus : Effect → Bool
  | Effect.setStatus _ => true
  | _ => false

/-- Whether an effect is a delay. -/
def isSleep : Effect → Bool
  | Effect.sleepDelay _ => true
  | _ => false

/-- Count of effects satisfying a predicate in a trace. -/
def countEff : List Effect → (Effect → Bool) → Nat
  | [], _ => 0
  | a :: l, p => (if p a then 1 else 0) + countEff l p

/-- Whether an effect is the connection close. -/
def isCloseConn : Effect → Bool
  | Effect.closeConn => true
  | _ => false

/-- Whether an effect is the PTY kill. -/
def isKillPty : Effect → Bool
  | Effect.killPty => true
  | _ => false

/-- Whether an effect removes a registry entry. -/
def isRemoveSession : Effect → Bool
  | Effect.removeSession _ => true
  | _ => false

/-- Concrete configuration for the environment-resolution scenario: the
default layer defines A, the bash entry defines only B. -/
def cfgEnvEx : TerminalConfig :=
  { default_shell_type := "sh"
    session_timeout := 1800000
    default_shell_config :=
      { size := { columns := 80, rows := 24 }
        working_directory := none
        environment := some [("A", "1")] }
    shells :=
      [("bash",
        { command := ["bash"]
          working_directory := none
          size := none
          environment := some [("B", "2")] })] }

/-- Concrete configuration for the shell-fallback scenario: only an "sh"
entry exists; "bash" is absent. -/
def cfgShEx : TerminalConfig :=
  { default_shell_type := "sh"
    session_timeout := 1800000
    default_shell_config :=
      { size := { columns := 80, rows := 24 }
        working_directory := none
        environment := none }
    shells :=
      [("sh",
        { command := ["/bin/sh"]
          working_directory := none
          size := none
          environment := none })] }

/-- A freshly created session record at time 100. -/
def sessionEx : Session :=
  Session.new "sid" "uid" none none "bash" 80 24 ConnectionTy.WebSocket 100

/-- A key absent from the key column is not found. -/
theorem assocLookup_eq_none_of_not_mem {α : Type} (l : List (String × α)) (k : String)
    (h : k ∉ l.map Prod.fst) : assocLookup l k = none := by
  induction l with
  | nil => rfl
  | cons hd tl ih =>
    obtain ⟨k', v'⟩ := hd
    simp only [List.map_cons, List.mem_cons, not_or] at h
    have hne : ¬ k' = k := by
      intro he
      exact h.1 he.symm
    simp only [assocLookup, if_neg hne]
    exact ih h.2

/-- Replacing or pushing a key makes that key resolve to the new value. -/
theorem assocLookup_replaceOrPush_self (l : List (String × String)) (k v : String) :
    assocLookup (replaceOrPush l k v) k = some v := by
  induction l with
  | nil => simp [replaceOrPush, assocLookup]
  | cons hd tl ih =>
    obtain ⟨k', v'⟩ := hd
    by_cases h : k' = k
    · simp [replaceOrPush, if_pos h, assocLookup]
    · simp only [replaceOrPush, if_neg h, assocLookup]
      exact ih

/-- Replacing or pushing a key leaves every other key unchanged. -/
theorem assocLookup_replaceOrPush_other (l : List (String × String)) (k v k2 : String)
    (hne : k2 ≠ k) : assocLookup (replaceOrPush l k v) k2 = assocLookup l k2 := by
  have hkk2 : ¬ k = k2 := fun he => hne he.symm
  induction l with
  | nil => simp [replaceOrPush, assocLookup, if_neg hkk2]
  | cons hd tl ih =>
    obtain ⟨k', v'⟩ := hd
    by_cases h : k' = k
    · subst h
      simp only [replaceOrPush, if_pos rfl, assocLookup]
      rw [if_neg hkk2, if_neg hkk2]
    · simp only [replaceOrPush, if_neg h, assocLookup]
      by_cases h2 : k' = k2
      · rw [if_pos h2, if_pos h2]
      · rw [if_neg h2, if_neg h2]
        exact ih

/-- Per-key reading of the create_pty_from_config environment fold: when the
shell layer has no duplicate keys, a key defined by the shell layer resolves
to the shell value and any other key to the default value. -/
theorem assocLookup_merge_env (d s : List (String × String)) (k : String)
    (h : (s.map Prod.fst).Nodup) :
    assocLookup (merge_env d s) k =
      (assocLookup s k).orElse (fun _ => assocLookup d k) := by
  induction s generalizing d with
  | nil => simp [merge_env, assocLookup, Option.orElse]
  | cons hd tl ih =>
    obtain ⟨k0, v0⟩ := hd
    simp only [List.map_cons, List.nodup_cons] at h
    have step : merge_env d ((k0, v0) :: tl) = merge_env (replaceOrPush d k0 v0) tl := rfl
    rw [step, ih _ h.2]
    by_cases hk : k0 = k
    · subst hk
      have htl : assocLookup tl k0 = none :=
        assocLookup_eq_none_of_not_mem tl k0 h.1
      simp [assocLookup, htl, assocLookup_replaceOrPush_self, Option.orElse]
    · have hlook : assocLookup ((k0, v0) :: tl) k = assocLookup tl k := by
        simp [assocLookup, if_neg hk]
      rw [hlook, assocLookup_replaceOrPush_other d k0 v0 k (Ne.symm hk)]

/-- An encoded scalar is never empty. -/
theorem utf8EncodeChar_ne_nil (c : Nat) : utf8EncodeChar c ≠ [] := by
  unfold utf8EncodeChar
  split
  · simp
  · split
    · simp
    · split <;> simp

/-- Decoding one scalar inverts encoding: the consumed bytes are exactly the
standard encoding of the produced scalar. -/
theorem utf8DecodeChar?_spec (l r : List Nat) (c : Nat)
    (h : utf8DecodeChar? l = some (c, r)) : utf8EncodeChar c ++ r = l := by
  match l with
  | [] => simp [utf8DecodeChar?] at h
  | b0 :: rest =>
    simp only [utf8DecodeChar?] at h
    split at h
    · rename_i h1
      simp only [Option.some.injEq, Prod.mk.injEq] at h
      obtain ⟨rfl, rfl⟩ := h
      simp [utf8EncodeChar, if_pos h1]
    · rename_i h1
      split at h
      · exact absurd h (by simp)
      · rename_i h2
        split at h
        · rename_i h3
          split at h
          · rename_i b1 r1
            split at h
            · rename_i hcond
              simp only [Option.some.injEq, Prod.mk.injEq] at h
              obtain ⟨rfl, rfl⟩ := h
              simp only [utf8EncodeChar]
              rw [if_neg (by omega), if_pos (by omega)]
              simp only [List.cons_append, List.nil_append, List.cons.injEq]
              refine ⟨by omega, by omega, trivial⟩
            · exact absurd h (by simp)
          · exact absurd h (by simp)
        · rename_i h3
          split at h
          · rename_i h4
            split at h
            · rename_i b1 b2 r2
              split at h
              · rename_i hcond
                simp only [Option.some.injEq, Prod.mk.injEq] at h
                obtain ⟨rfl, rfl⟩ := h
                simp only [utf8EncodeChar]
                rw [if_neg (by omega), if_neg (by omega), if_pos (by omega)]
                simp only [List.cons_append, List.nil_append, List.cons.injEq]
                refine ⟨by omega, by omega, by omega, trivial⟩
              · exact absurd h (by simp)
            · exact absurd h (by simp)
          · rename_i h4
            split at h
            · rename_i h5
              split at h
              · rename_i b1 b2 b3 r3
                split at h
                · rename_i hcond
                  simp only [Option.some.injEq, Prod.mk.injEq] at h
                  obtain ⟨rfl, rfl⟩ := h
                  simp only [utf8EncodeChar]
                  rw [if_neg (by omega), if_neg (by omega), if_neg (by omega)]
                  simp only [List.cons_append, List.nil_append, List.cons.injEq]
                  refine ⟨by omega, by omega, by omega, by omega, trivial⟩
                · exact absurd h (by simp)
              · exact absurd h (by simp)
            · exact absurd h (by simp)

/-- Whole-buffer roundtrip at any sufficient fuel: a successful decode means
the buffer is exactly the encoding of the produced scalars. -/
theorem utf8DecodeLoop_spec (fuel : Nat) :
    ∀ (l cps : List Nat), l.length ≤ fuel → utf8DecodeLoop fuel l = some cps →
      utf8Encode cps = l := by
  induction fuel with
  | zero =>
    intro l cps hlen h
    match l with
    | [] =>
      simp only [utf8DecodeLoop, Option.some.injEq] at h
      subst h
      rfl
    | b :: bs => simp at hlen
  | succ n ih =>
    intro l cps hlen h
    match l with
    | [] =>
      simp only [utf8DecodeLoop, Option.some.injEq] at h
      subst h
      rfl
    | b :: bs =>
      simp only [utf8DecodeLoop] at h
      match hd : utf8DecodeChar? (b :: bs) with
      | none => rw [hd] at h; exact absurd h (by simp)
      | some (c, rest) =>
        rw [hd] at h
        simp only [Option.map_eq_some'] at h
        obtain ⟨cs, hloop, rfl⟩ := h
        have henc : utf8EncodeChar c ++ rest = b :: bs :=
          utf8DecodeChar?_spec _ _ _ hd
        have hlen2 : rest.length ≤ n := by
          have hl := congrArg List.length henc
          simp only [List.length_append, List.length_cons] at hl
          have hpos : utf8EncodeChar c ≠ [] := utf8EncodeChar_ne_nil c
          have : 1 ≤ (utf8EncodeChar c).length := by
            cases hc : utf8EncodeChar c with
            | nil => exact absurd hc hpos
            | cons x xs => simp
          simp only [List.length_cons] at hlen
          omega
        have := ih rest cs hlen2 hloop
        calc utf8Encode (c :: cs) = utf8EncodeChar c ++ utf8Encode cs := rfl
          _ = utf8EncodeChar c ++ rest := by rw [this]
          _ = b :: bs := henc

/-- String::from_utf8 roundtrip: a buffer that decodes successfully is exactly
the UTF-8 encoding of the decoded scalar sequence. -/
theorem utf8Decode?_spec (l cps : List Nat) (h : utf8Decode? l = some cps) :
    utf8Encode cps = l :=
  utf8DecodeLoop_spec l.length l cps (le_refl _) h

/-- C1 counterexample: for the configuration whose default layer defines
environment key A and whose bash entry defines only key B, the claim predicts
the resolved environment keeps A (per-key merge); get_shell_config instead
replaces the map wholesale, so A is dropped while the default layer does
define it. -/
theorem C1_env_merge_counterexample :
    assocLookup ((cfgEnvEx.get_shell_config "bash").environment.getD []) "A" = none ∧
    assocLookup (cfgEnvEx.default_shell_config.environment.getD []) "A" = some "1" ∧
    assocLookup ((cfgEnvEx.get_shell_config "bash").environment.getD []) "B" = some "2" := by
  decide

/-- C1 (amended): environment resolution in get_shell_config is an Option-level
choice, not a per-key merge: for every configuration, shell type and key, when
the shell entry defines an environment map that map alone answers the lookup
(keys only in the default layer are dropped), and the default layer answers
only when the shell entry defines no map.  The per-key merge exists only in
create_pty_from_config, whose environment fold resolves every key to the shell
value when the shell layer defines it and to the default value otherwise. -/
theorem C1_env_resolution (cfg : TerminalConfig) (st k : String)
    (dEnv sEnv : List (String × String)) (hnodup : (sEnv.map Prod.fst).Nodup) :
    (assocLookup ((cfg.get_shell_config st).environment.getD []) k =
      match assocLookup cfg.shells st with
      | some sc =>
        match sc.environment with
        | some m => assocLookup m k
        | none => assocLookup (cfg.default_shell_config.environment.getD []) k
      | none => assocLookup (cfg.default_shell_config.environment.getD []) k) ∧
    assocLookup (merge_env dEnv sEnv) k =
      (assocLookup sEnv k).orElse (fun _ => assocLookup dEnv k) := by
  constructor
  · cases hsc : assocLookup cfg.shells st with
    | none => simp [TerminalConfig.get_shell_config, hsc, Option.orElse]
    | some sc =>
      cases he : sc.environment with
      | none => simp [TerminalConfig.get_shell_config, hsc, he, Option.orElse]
      | some m => simp [TerminalConfig.get_shell_config, hsc, he, Option.orElse]
  · exact assocLookup_merge_env dEnv sEnv k hnodup

/-- C1 witness: the amended resolution evaluated on the concrete
configuration, and the per-key merge on concrete layers. -/
theorem C1_env_resolution_witness :
    ([("B", "2")].map (Prod.fst (β := String))).Nodup ∧
    assocLookup ((cfgEnvEx.get_shell_config "bash").environment.getD []) "B" = some "2" ∧
    assocLookup (merge_env [("A", "1")] [("B", "2")]) "A" = some "1" := by
  refine ⟨by decide, ?_, ?_⟩
  · exact (C1_env_resolution cfgEnvEx "bash" "B" [] [] (by decide)).1.trans (by decide)
  · exact (C1_env_resolution cfgEnvEx "bash" "A" [("A", "1")] [("B", "2")]
      (by decide)).2.trans (by decide)

/-- C8 counterexample: with only an "sh" entry configured (the default shell
type), resolving shell type "bash" yields the empty command, not the "sh"
entry command as the claim predicts. -/
theorem C8_fallback_counterexample :
    (cfgShEx.get_shell_config "bash").command = [] ∧
    (cfgShEx.get_shell_config "sh").command = ["/bin/sh"] ∧
    ([] : List String) ≠ ["/bin/sh"] := by
  decide

/-- C8 (amended): get_shell_config falls back to the default shell config
template only, never to the default shell type entry; when the requested
shell type has no entry the resolved command is the empty vector. -/
theorem C8_absent_shell_command (cfg : TerminalConfig) (st : String)
    (h : assocLookup cfg.shells st = none) :
    (cfg.get_shell_config st).command = [] := by
  simp [TerminalConfig.get_shell_config, h]

/-- C8 witness: the amended statement evaluated at the concrete
configuration and shell type "bash". -/
theorem C8_absent_shell_command_witness :
    assocLookup cfgShEx.shells "bash" = none ∧
    (cfgShEx.get_shell_config "bash").command = [] :=
  ⟨by decide, C8_absent_shell_command cfgShEx "bash" (by decide)⟩

/-- C5: the session runtime spawns every session PTY from the one fixed
launch configuration - command "bash" with no arguments, 80 by 24, environment
exactly TERM and COLORTERM, no working directory - whatever the application
configuration holds. -/
theorem C5_fixed_spawn_config (cfg : TerminalConfig) :
    session_spawn_config cfg =
      { command := "bash"
        args := []
        cols := 80
        rows := 24
        env := [("TERM", "xterm-256color"), ("COLORTERM", "truecolor")]
        cwd := none } := rfl

/-- C5 witness: the fixed spawn configuration evaluated at a concrete
application configuration. -/
theorem C5_fixed_spawn_config_witness :
    session_spawn_config cfgEnvEx =
      { command := "bash"
        args := []
        cols := 80
        rows := 24
        env := [("TERM", "xterm-256color"), ("COLORTERM", "truecolor")]
        cwd := none } :=
  C5_fixed_spawn_config cfgEnvEx

/-- C2 counterexample: a 0-byte PTY read makes the read task sleep 10ms and
retry - it does not stop the task, while a client Close makes the pump loop
exit in that iteration; the two are not treated identically. -/
theorem C2_eof_counterexample :
    read_task_step (Except.ok []) true = ReadStep.sleepRetry 10 ∧
    read_task_step (Except.ok []) true ≠ ReadStep.stopChanClosed ∧
    (pumpStep (PumpEvent.connMsg (some (Except.ok TerminalMessage.close))) true).2 = false := by
  decide

/-- C2 (amended): a 0-byte PTY read is treated as no data - the read task
sleeps 10ms and retries; a read error sleeps 100ms and retries; the read task
stops only when its channel to the main loop is closed, so neither EOF nor a
read error ends the Active state or triggers teardown. -/
theorem C2_eof_keeps_looping :
    (∀ chanOpen, read_task_step (Except.ok []) chanOpen = ReadStep.sleepRetry 10) ∧
    (∀ e chanOpen, read_task_step (Except.error e) chanOpen = ReadStep.sleepRetry 100) ∧
    (∀ res chanOpen, read_task_step res chanOpen = ReadStep.stopChanClosed →
      chanOpen = false) := by
  refine ⟨fun chanOpen => rfl, fun e chanOpen => rfl, fun res chanOpen h => ?_⟩
  match res with
  | Except.ok data =>
    simp only [read_task_step] at h
    by_cases hl : data.length > 0
    · rw [if_pos hl] at h
      cases chanOpen
      · rfl
      · simp at h
    · rw [if_neg hl] at h
      simp at h
  | Except.error e => simp [read_task_step] at h

/-- C2 witness: the amended statement evaluated on concrete read results. -/
theorem C2_eof_keeps_looping_witness :
    read_task_step (Except.ok []) true = ReadStep.sleepRetry 10 ∧
    read_task_step (Except.error "io") false = ReadStep.sleepRetry 100 ∧
    (read_task_step (Except.ok [1]) false = ReadStep.stopChanClosed ∧ false = false) :=
  ⟨C2_eof_keeps_looping.1 true, C2_eof_keeps_looping.2.1 "io" false,
    by decide, C2_eof_keeps_looping.2.2 (Except.ok [1]) false (by decide)⟩

/-- C3: the message handler answers should_close = true to a Close message,
the pump loop exits in the same iteration that receives Close, and teardown
performs the connection close and the PTY kill exactly once each, whatever
either of them returns - in particular a failing close never skips the kill. -/
theorem C3_close_teardown :
    (∀ ioOk, MessageHandler.handle_message TerminalMessage.close ioOk = Except.ok true) ∧
    (∀ ioOk, pumpStep (PumpEvent.connMsg (some (Except.ok TerminalMessage.close))) ioOk =
      ([], false)) ∧
    (∀ (closeFails killFails : Bool) (id : String),
      countEff (teardown closeFails killFails id) isCloseConn = 1 ∧
      countEff (teardown closeFails killFails id) isKillPty = 1) := by
  refine ⟨fun ioOk => rfl, fun ioOk => rfl, fun cf kf id => ?_⟩
  cases cf <;> cases kf <;>
    simp [teardown, countEff, isCloseConn, isKillPty]

/-- C3 witness: the close answer and the teardown counts on concrete inputs,
with a failing close. -/
theorem C3_close_teardown_witness :
    MessageHandler.handle_message TerminalMessage.close true = Except.ok true ∧
    countEff (teardown true false "s") isKillPty = 1 :=
  ⟨C3_close_teardown.1 true, (C3_close_teardown.2.2 true false "s").2⟩

/-- C4: each PTY chunk is forwarded as exactly one frame: a Text frame
carrying exactly the decoded scalars when the chunk is valid UTF-8 (so that
re-encoding the frame content gives back the chunk), and otherwise a Binary
frame carrying the chunk itself; the chunk is never dropped. -/
theorem C4_pty_output_framing (bytes : List Nat) (ioOk : Bool) :
    (pumpStep (PumpEvent.ptyData bytes) ioOk).1.filter isSendFrame =
      [MessageHandler.handle_pty_output bytes] ∧
    (∀ cps, utf8Decode? bytes = some cps →
      MessageHandler.handle_pty_output bytes = Effect.sendText cps ∧
      utf8Encode cps = bytes) ∧
    (utf8Decode? bytes = none →
      MessageHandler.handle_pty_output bytes = Effect.sendBinary bytes) := by
  refine ⟨?_, ?_, ?_⟩
  · cases hdec : utf8Decode? bytes <;> cases ioOk <;>
      simp [pumpStep, hdec, MessageHandler.handle_pty_output, isSendFrame,
        List.filter]
  · intro cps hdec
    exact ⟨by simp [MessageHandler.handle_pty_output, hdec],
      utf8Decode?_spec bytes cps hdec⟩
  · intro hdec
    simp [MessageHandler.handle_pty_output, hdec]

/-- C4 witness: framing evaluated on a valid UTF-8 chunk and on an invalid
one (a lone continuation byte). -/
theorem C4_pty_output_framing_witness :
    (utf8Decode? [104, 105] = some [104, 105] ∧
      MessageHandler.handle_pty_output [104, 105] = Effect.sendText [104, 105] ∧
      utf8Encode [104, 105] = [104, 105]) ∧
    (utf8Decode? [0x80] = none ∧
      MessageHandler.handle_pty_output [0x80] = Effect.sendBinary [0x80]) :=
  ⟨⟨by decide, (C4_pty_output_framing [104, 105] true).2.1 [104, 105] (by decide)⟩,
    ⟨by decide, (C4_pty_output_framing [0x80] true).2.2 (by decide)⟩⟩

/-- C6: a PTY spawn failure during initialization produces exactly one
diagnostic text message, then a connection close, then removal of the
just-created registry entry, and the Active pump state is never entered. -/
theorem C6_spawn_failure_path (e conn_id : String) :
    session_init (Except.error e) conn_id =
      InitResult.failedClosed
        [Effect.addSession conn_id,
          Effect.sendDiag ("Error: Failed to create terminal session: " ++ e),
          Effect.closeConn,
          Effect.removeSession conn_id] ∧
    countEff
      [Effect.addSession conn_id,
        Effect.sendDiag ("Error: Failed to create terminal session: " ++ e),
        Effect.closeConn,
        Effect.removeSession conn_id] isDiag = 1 ∧
    countEff
      [Effect.addSession conn_id,
        Effect.sendDiag ("Error: Failed to create terminal session: " ++ e),
        Effect.closeConn,
        Effect.removeSession conn_id] isCloseConn = 1 ∧
    countEff
      [Effect.addSession conn_id,
        Effect.sendDiag ("Error: Failed to create terminal session: " ++ e),
        Effect.closeConn,
        Effect.removeSession conn_id] isRemoveSession = 1 ∧
    (∀ pre, session_init (Except.error e) conn_id ≠ InitResult.enteredActive pre) := by
  refine ⟨rfl, rfl, rfl, rfl, fun pre h => ?_⟩
  simp [session_init] at h

/-- C6 witness: the failure path evaluated on a concrete spawn error. -/
theorem C6_spawn_failure_path_witness :
    session_init (Except.error "boom") "s1" =
      InitResult.failedClosed
        [Effect.addSession "s1",
          Effect.sendDiag "Error: Failed to create terminal session: boom",
          Effect.closeConn,
          Effect.removeSession "s1"] :=
  (C6_spawn_failure_path "boom" "s1").1

/-- C7 counterexample: the concrete teardown trace removes the registry entry
but contains no Terminated status write and no delay - the entry is removed
without its status ever having been set to Terminated. -/
theorem C7_status_counterexample :
    countEff (teardown false false "s") isRemoveSession = 1 ∧
    countEff (teardown false false "s") isSetStatus = 0 ∧
    countEff (teardown false false "s") isSleep = 0 := by
  decide

/-- C7 (amended): the runtime registry is a plain list of connection ids with
no per-session status; teardown removes the entry exactly once, as its last
step, immediately after the close and kill, with no status write and no
delay before removal. -/
theorem C7_removal_without_status (closeFails killFails : Bool) (id : String) :
    countEff (teardown closeFails killFails id) isRemoveSession = 1 ∧
    countEff (teardown closeFails killFails id) isSetStatus = 0 ∧
    countEff (teardown closeFails killFails id) isSleep = 0 ∧
    (teardown closeFails killFails id).getLast? = some (Effect.removeSession id) := by
  cases closeFails <;> cases killFails <;>
    simp [teardown, countEff, isRemoveSession, isSetStatus, isSleep]

/-- C7 witness: the amended teardown shape on concrete failure flags. -/
theorem C7_removal_without_status_witness :
    countEff (teardown true true "s2") isSetStatus = 0 ∧
    (teardown true true "s2").getLast? = some (Effect.removeSession "s2") :=
  ⟨(C7_removal_without_status true true "s2").2.1,
    (C7_removal_without_status true true "s2").2.2.2⟩

/-- C9 counterexample: closing a WebSocket connection twice fails the second
time (the second Close frame is rejected by the transport), and killing a PTY
whose child exit was already collected by try_wait fails - neither operation
is idempotent as the claim states. -/
theorem C9_idempotence_counterexample :
    WebSocketConnection.close { socket := { close_sent := false }, id := "c" } =
      Except.ok { socket := { close_sent := true }, id := "c" } ∧
    WebSocketConnection.close { socket := { close_sent := true }, id := "c" } =
      Except.error "send after closing" ∧
    (TokioProcessPty.try_wait
      { child := ChildState.exitedUnreaped, child_exited := false }).1 = some () ∧
    TokioProcessPty.kill
      (TokioProcessPty.try_wait
        { child := ChildState.exitedUnreaped, child_exited := false }).2 =
      Except.error "invalid argument: cannot kill an exited process" :=
  ⟨rfl, rfl, rfl, rfl⟩

/-- C9 (amended): neither operation guards for prior closure or exit.  close
unconditionally sends another Close frame, so it fails exactly when the
transport has already seen one; kill unconditionally calls the child kill, so
it fails once the exit has been reaped and succeeds (reaping) on a live or
exited-but-unreaped child. -/
theorem C9_close_kill_not_guarded :
    (∀ c : WebSocketConnection, c.socket.close_sent = true →
      c.close = Except.error "send after closing") ∧
    (∀ c : WebSocketConnection, c.socket.close_sent = false →
      c.close = Except.ok { c with socket := { close_sent := true } }) ∧
    (∀ p : TokioProcessPty, p.child = ChildState.reaped →
      p.kill = Except.error "invalid argument: cannot kill an exited process") ∧
    (∀ p : TokioProcessPty, p.child ≠ ChildState.reaped →
      p.kill = Except.ok { child := ChildState.reaped, child_exited := true }) := by
  refine ⟨fun c hc => ?_, fun c hc => ?_, fun p hp => ?_, fun p hp => ?_⟩
  · simp [WebSocketConnection.close, ws_send, hc]
  · simp [WebSocketConnection.close, ws_send, hc]
  · simp [TokioProcessPty.kill, hp, child_kill]
  · match hch : p.child with
    | ChildState.running => simp [TokioProcessPty.kill, hch, child_kill]
    | ChildState.exitedUnreaped => simp [TokioProcessPty.kill, hch, child_kill]
    | ChildState.reaped => exact absurd hch hp

/-- C9 witness: the amended statement evaluated on concrete connection and
PTY states. -/
theorem C9_close_kill_not_guarded_witness :
    WebSocketConnection.close { socket := { close_sent := true }, id := "w" } =
      Except.error "send after closing" ∧
    TokioProcessPty.kill { child := ChildState.exitedUnreaped, child_exited := false } =
      Except.ok { child := ChildState.reaped, child_exited := true } :=
  ⟨C9_close_kill_not_guarded.1 { socket := { close_sent := true }, id := "w" } rfl,
    C9_close_kill_not_guarded.2.2.2
      { child := ChildState.exitedUnreaped, child_exited := false } (by decide)⟩

/-- C10 counterexample: set_status enforces no transition discipline, so a
freshly Created session moves directly to Disconnected - which the claim
says is reachable only from Active - and a Terminated session moves back to
Created; both sequences use only the exposed mutations under a monotone
clock. -/
theorem C10_transition_counterexample :
    sessionEx.status = SessionStatus.Created ∧
    (sessionEx.set_status SessionStatus.Disconnected 101).status =
      SessionStatus.Disconnected ∧
    SessionReachable (sessionEx.set_status SessionStatus.Disconnected 101) ∧
    ((sessionEx.set_status SessionStatus.Terminated 102).set_status
      SessionStatus.Created 103).status = SessionStatus.Created := by
  refine ⟨rfl, rfl, ?_, rfl⟩
  exact SessionReachable.set_status _ _ _
    (SessionReachable.new "sid" "uid" none none "bash" 80 24
      ConnectionTy.WebSocket 100) (by decide)

/-- C10 (amended): for every session reachable through the exposed mutations
under a monotone clock, updated_at is at least created_at, and every mutation
sets updated_at to the mutation time; but no transition order is enforced -
set_status installs any status whatever the previous one was. -/
theorem C10_session_invariants :
    (∀ s : Session, SessionReachable s → s.created_at ≤ s.updated_at) ∧
    (∀ (s : Session) (st : SessionStatus) (now : Nat),
      (s.set_status st now).status = st ∧ (s.set_status st now).updated_at = now) ∧
    (∀ (s : Session) (c r now : Nat), (s.resize c r now).updated_at = now) := by
  refine ⟨fun s h => ?_, fun s st now => ⟨rfl, rfl⟩, fun s c r now => rfl⟩
  induction h with
  | new _ _ _ _ _ _ _ _ _ => exact le_refl _
  | resize s c r now hs hclock ih => exact le_trans ih hclock
  | set_status s st now hs hclock ih => exact le_trans ih hclock

/-- C10 witness: the invariant applied to a concrete reachable session. -/
theorem C10_session_invariants_witness :
    SessionReachable (sessionEx.resize 100 40 150) ∧
    (sessionEx.resize 100 40 150).created_at ≤ (sessionEx.resize 100 40 150).updated_at ∧
    (sessionEx.set_status SessionStatus.Active 120).status = SessionStatus.Active := by
  have hr : SessionReachable (sessionEx.resize 100 40 150) :=
    SessionReachable.resize _ _ _ _
      (SessionReachable.new "sid" "uid" none none "bash" 80 24
        ConnectionTy.WebSocket 100) (by decide)
  exact ⟨hr, C10_session_invariants.1 _ hr,
    (C10_session_invariants.2.1 sessionEx SessionStatus.Active 120).1⟩
